import Mathlib

set_option maxRecDepth 200000

/-!
Shallow embedding of the glslang-zig compilation pipeline exercised by
`src/StandAlone/minimal-test.cpp` and `src/StandAlone/shared_glslang.cpp`.

The repository's own sources only contain the test harness driving the
glslang C API (preprocess → parse → link → SPIR-V generate → disassemble).
The library behind that API is not part of `src/`, so the pipeline stages
are modelled from the specification (each such definition carries a
`Modelled from the spec:` doc comment), while the harness's control flow
is translated directly from `minimal-test.cpp`.
-/

namespace Glslang

/-! ## Character and string utilities -/

/-- First character of an identifier (C-style). -/
def isIdentStart (c : Char) : Bool := c.isAlpha || c = '_'

/-- Non-first character of an identifier (C-style). -/
def isIdentChar (c : Char) : Bool := c.isAlphanum || c = '_'

/-- Drop leading spaces and tabs. -/
def dropSpaces (s : List Char) : List Char :=
  s.dropWhile (fun c => c = ' ' || c = '\t')

/-- `begWith needle hay` is true when `needle` is an initial segment of `hay`. -/
def begWith : List Char → List Char → Bool
  | [], _ => true
  | _ :: _, [] => false
  | a :: as, b :: bs => a == b && begWith as bs

/-- `hasSubList needle hay` is true when `needle` occurs contiguously in `hay`. -/
def hasSubList (needle : List Char) : List Char → Bool
  | [] => begWith needle []
  | c :: rest => begWith needle (c :: rest) || hasSubList needle rest

/-- Substring test on strings (needle second). -/
def hasSubStr (hay sub : String) : Bool := hasSubList sub.data hay.data

/-! ## Splitting text into lines and joining lines back -/

/-- Split a character stream at newline characters; `acc` holds the
current (reversed) line. Always returns at least one line. -/
def splitLinesAux : List Char → List Char → List (List Char)
  | acc, [] => [acc.reverse]
  | acc, c :: rest =>
    if c = '\n' then acc.reverse :: splitLinesAux [] rest
    else splitLinesAux (c :: acc) rest

/-- The lines of a character stream. -/
def splitLines (s : List Char) : List (List Char) := splitLinesAux [] s

/-- Join lines with newline separators (inverse of `splitLines`). -/
def joinLines : List (List Char) → List Char
  | [] => []
  | [l] => l
  | l :: l2 :: ls => l ++ '\n' :: joinLines (l2 :: ls)

theorem splitLinesAux_ne_nil (s acc : List Char) : splitLinesAux acc s ≠ [] := by
  induction s generalizing acc with
  | nil => simp [splitLinesAux]
  | cons c rest ih =>
    unfold splitLinesAux
    split
    · simp
    · exact ih _

theorem joinLines_splitLinesAux (s acc : List Char) :
    joinLines (splitLinesAux acc s) = acc.reverse ++ s := by
  induction s generalizing acc with
  | nil => simp [splitLinesAux, joinLines]
  | cons c rest ih =>
    unfold splitLinesAux
    split
    · rename_i hc
      obtain ⟨l, ls, hls⟩ : ∃ l ls, splitLinesAux [] rest = l :: ls := by
        cases h : splitLinesAux [] rest with
        | nil => exact absurd h (splitLinesAux_ne_nil rest [])
        | cons l ls => exact ⟨l, ls, rfl⟩
      have hjoin := ih ([] : List Char)
      rw [hls] at hjoin
      simp only [List.reverse_nil, List.nil_append] at hjoin
      rw [hls]
      simp [joinLines, hjoin, hc]
    · rw [ih]
      simp

theorem joinLines_splitLines (s : List Char) : joinLines (splitLines s) = s := by
  simpa using joinLines_splitLinesAux s []

theorem splitLinesAux_no_newline (s acc : List Char) (hacc : '\n' ∉ acc) :
    ∀ l ∈ splitLinesAux acc s, '\n' ∉ l := by
  induction s generalizing acc with
  | nil =>
    intro l hl
    simp only [splitLinesAux, List.mem_singleton] at hl
    subst hl
    simpa using hacc
  | cons c rest ih =>
    intro l hl
    unfold splitLinesAux at hl
    split at hl
    · rcases List.mem_cons.mp hl with h | h
      · subst h; simpa using hacc
      · exact ih [] (by simp) l h
    · rename_i hc
      refine ih (c :: acc) ?_ l hl
      intro hmem
      rcases List.mem_cons.mp hmem with h | h
      · exact hc h.symm
      · exact hacc h

theorem splitLinesAux_append (l s acc : List Char) (hl : '\n' ∉ l) :
    splitLinesAux acc (l ++ s) = splitLinesAux (l.reverse ++ acc) s := by
  induction l generalizing acc with
  | nil => simp
  | cons c l' ih =>
    have hc : ¬ c = '\n' := fun h => hl (by simp [h])
    have hl' : '\n' ∉ l' := fun h => hl (by simp [h])
    show splitLinesAux acc (c :: (l' ++ s)) = _
    conv_lhs => rw [splitLinesAux]
    rw [if_neg hc, ih _ hl']
    simp

theorem splitLines_joinLines (ls : List (List Char)) (hne : ls ≠ [])
    (hnn : ∀ l ∈ ls, '\n' ∉ l) : splitLines (joinLines ls) = ls := by
  induction ls with
  | nil => exact absurd rfl hne
  | cons l ls ih =>
    cases ls with
    | nil =>
      have hl : '\n' ∉ l := hnn l (by simp)
      have := splitLinesAux_append l [] [] hl
      simp only [List.append_nil] at this
      simp [splitLines, joinLines, this, splitLinesAux]
    | cons l2 ls2 =>
      have hl : '\n' ∉ l := hnn l (by simp)
      have hrest : ∀ x ∈ l2 :: ls2, '\n' ∉ x := by
        intro x hx; exact hnn x (List.mem_cons_of_mem _ hx)
      simp only [joinLines, splitLines]
      rw [splitLinesAux_append l _ [] hl]
      simp only [List.append_nil, splitLinesAux, if_pos rfl]
      have := ih (by simp) hrest
      simp only [splitLines] at this
      simp [this]

/-! ## Preprocessor (Modelled from the spec)

Modelled from the spec: the glslang preprocessor itself is not under
`src/`; this models §4.1 of the specification — object-like and
function-like macro definitions, single-pass expansion of invocations,
and failure with a `PreprocessError` diagnostic on malformed directives.
Conditional inclusion is not exercised by any claim and is treated as an
unsupported directive. -/

/-- A preprocessor macro: name, optional parameter list (function-like
when present), and replacement body. -/
structure Macro where
  name : String
  params : Option (List String)
  body : List Char
deriving DecidableEq

/-- Look up a macro by name (most recent definition first). -/
def findMacro (ms : List Macro) (nm : String) : Option Macro :=
  ms.find? (fun m => m.name == nm)

/-- Substitute macro parameters (identifier-wise) by their argument
texts in a macro body. Fuel decreases once per step; one step always
consumes at least one character. -/
def substFuel (pairs : List (String × List Char)) : Nat → List Char → List Char
  | 0, s => s
  | _ + 1, [] => []
  | fuel + 1, c :: rest =>
    if isIdentStart c then
      let id := (c :: rest).takeWhile isIdentChar
      let r2 := (c :: rest).dropWhile isIdentChar
      match pairs.find? (fun p => p.1 == String.mk id) with
      | some p => p.2 ++ substFuel pairs fuel r2
      | none => id ++ substFuel pairs fuel r2
    else c :: substFuel pairs fuel rest

/-- Collect the arguments of a function-like macro invocation, starting
just after the opening parenthesis: splits on top-level commas, tracks
nesting depth, and returns the remainder after the closing parenthesis. -/
def splitArgsAux : Nat → Nat → List Char → List Char → List (List Char) →
    Option (List (List Char) × List Char)
  | 0, _, _, _, _ => none
  | _ + 1, _, _, [], _ => none
  | fuel + 1, depth, cur, c :: rest, acc =>
    if c = '(' then splitArgsAux fuel (depth + 1) (cur ++ [c]) rest acc
    else if c = ')' then
      if depth = 0 then some (acc ++ [cur], rest)
      else splitArgsAux fuel (depth - 1) (cur ++ [c]) rest acc
    else if c = ',' ∧ depth = 0 then splitArgsAux fuel 0 [] rest (acc ++ [cur])
    else splitArgsAux fuel depth (cur ++ [c]) rest acc

/-- Single-pass macro expansion of one line of text. -/
def expandFuel (ms : List Macro) : Nat → List Char → List Char
  | 0, s => s
  | _ + 1, [] => []
  | fuel + 1, c :: rest =>
    if isIdentStart c then
      let id := (c :: rest).takeWhile isIdentChar
      let r2 := (c :: rest).dropWhile isIdentChar
      match findMacro ms (String.mk id) with
      | none => id ++ expandFuel ms fuel r2
      | some m =>
        match m.params with
        | none => m.body ++ expandFuel ms fuel r2
        | some ps =>
          match r2 with
          | '(' :: r3 =>
            match splitArgsAux (r3.length + 1) 0 [] r3 [] with
            | some (args, r4) =>
              substFuel (ps.zip args) m.body.length m.body ++ expandFuel ms fuel r4
            | none => id ++ expandFuel ms fuel r2
          | _ => id ++ expandFuel ms fuel r2
    else c :: expandFuel ms fuel rest

/-- Expand all macro invocations in one line. -/
def expandLine (ms : List Macro) (l : List Char) : List Char :=
  expandFuel ms l.length l

/-- With no macros defined, expansion is the identity: this is the key
step behind idempotence of preprocessing on macro-free text. -/
theorem expandFuel_nil (fuel : Nat) (s : List Char) : expandFuel [] fuel s = s := by
  induction fuel generalizing s with
  | zero => rfl
  | succ n ih =>
    cases s with
    | nil => rfl
    | cons c rest =>
      unfold expandFuel
      split
      · show (c :: rest).takeWhile isIdentChar ++
            expandFuel [] n ((c :: rest).dropWhile isIdentChar) = c :: rest
        rw [ih]
        exact List.takeWhile_append_dropWhile isIdentChar (c :: rest)
      · rw [ih]

theorem expandLine_nil (l : List Char) : expandLine [] l = l := expandFuel_nil _ _

/-- Content of a directive line: the text after a leading `#`, if the
line (after leading blanks) starts with one. -/
def directiveOf (l : List Char) : Option (List Char) :=
  match dropSpaces l with
  | '#' :: rest => some (dropSpaces rest)
  | _ => none

/-- Parse the parameter list of a function-like macro definition,
starting just after the opening parenthesis. -/
def parseParamsAux : Nat → List Char → List String →
    Option (List String × List Char)
  | 0, _, _ => none
  | fuel + 1, s, acc =>
    let s1 := dropSpaces s
    match s1.takeWhile isIdentChar, s1.dropWhile isIdentChar with
    | [], _ => none
    | id, rest =>
      match dropSpaces rest with
      | ')' :: r => some (acc ++ [String.mk id], r)
      | ',' :: r => parseParamsAux fuel r (acc ++ [String.mk id])
      | _ => none

/-- Parse the remainder of a `#define` directive (after the keyword):
macro name, parameter list when a parenthesis immediately follows the
name, and replacement body. -/
def parseDefine (s : List Char) : Option Macro :=
  let s1 := dropSpaces s
  match s1.takeWhile isIdentChar, s1.dropWhile isIdentChar with
  | [], _ => none
  | nm, rest =>
    match rest with
    | '(' :: r =>
      match dropSpaces r with
      | ')' :: r2 => some ⟨String.mk nm, some [], dropSpaces r2⟩
      | _ =>
        match parseParamsAux (r.length + 1) r [] with
        | some (ps, r2) => some ⟨String.mk nm, some ps, dropSpaces r2⟩
        | none => none
    | _ => some ⟨String.mk nm, none, dropSpaces rest⟩

/-- Process a list of source lines: `#define` lines extend the macro
table and are dropped from the output, any other directive is a
preprocessing error, and ordinary lines are macro-expanded. -/
def ppLines : List Macro → List (List Char) → Except String (List (List Char))
  | _, [] => .ok []
  | ms, l :: ls =>
    match directiveOf l with
    | none =>
      match ppLines ms ls with
      | .ok rest => .ok (expandLine ms l :: rest)
      | .error e => .error e
    | some d =>
      if begWith ("define".data) d then
        match parseDefine (d.drop 6) with
        | some m => ppLines (m :: ms) ls
        | none => .error ("malformed define directive")
      else .error ("unsupported or malformed directive")

/-- Modelled from the spec: `preprocess(unit, config) -> text |
PreprocessError` (§4.1, §6) with no externally supplied macros, as in
the harness. The error value is the accumulated info-log text. -/
def ppText (x : String) : Except String String :=
  match ppLines [] (splitLines x.data) with
  | .ok ls => .ok (String.mk (joinLines ls))
  | .error e => .error e

/-- A text is macro-free when it contains no preprocessor directives (with
no externally supplied macros, such a text contains no macro invocations
of any defined macro either). -/
def macroFree (x : String) : Prop :=
  ∀ l ∈ splitLines x.data, directiveOf l = none

instance (x : String) : Decidable (macroFree x) := by
  unfold macroFree
  infer_instance

theorem ppLines_no_directive (ls : List (List Char))
    (h : ∀ l ∈ ls, directiveOf l = none) : ppLines [] ls = .ok ls := by
  induction ls with
  | nil => rfl
  | cons l rest ih =>
    have hl : directiveOf l = none := h l (by simp)
    have hrest := ih (fun x hx => h x (List.mem_cons_of_mem _ hx))
    unfold ppLines
    rw [hl, hrest, expandLine_nil]

/-! ## Configuration (from `glslang_input_t` as filled in by the harness) -/

/-- Source language tag (`glslang_source_t`). -/
inductive SourceLang
  | glsl
  | hlsl
deriving DecidableEq

/-- Pipeline stage tag (`glslang_stage_t`). -/
inductive Stage
  | vertex
  | tesscontrol
  | tessevaluation
  | geometry
  | fragment
  | compute
deriving DecidableEq

/-- Target client (`glslang_client_t`). -/
inductive Client
  | noClient
  | vulkan
  | opengl
deriving DecidableEq

/-- Target binary format (`glslang_target_language_t`). -/
inductive TargetLanguage
  | spv
deriving DecidableEq

/-- Language profile (`glslang_profile_t`). -/
inductive Profile
  | noProfile
  | coreProfile
  | compatibilityProfile
  | esProfile
deriving DecidableEq

/-- `GLSLANG_TARGET_VULKAN_1_2` encodes Vulkan 1.2 as `(1<<22)|(2<<12)`. -/
def GLSLANG_TARGET_VULKAN_1_2 : Nat := (1 <<< 22) ||| (2 <<< 12)

/-- `GLSLANG_TARGET_SPV_1_5` encodes SPIR-V 1.5 as `(1<<16)|(5<<8)`,
which is also the SPIR-V module header's version word for 1.5. -/
def GLSLANG_TARGET_SPV_1_5 : Nat := (1 <<< 16) ||| (5 <<< 8)

/-- `GLSLANG_MSG_DEFAULT_BIT` message flag. -/
def GLSLANG_MSG_DEFAULT_BIT : Nat := 0

/-- `GLSLANG_MSG_SPV_RULES_BIT` message flag. -/
def GLSLANG_MSG_SPV_RULES_BIT : Nat := 1 <<< 3

/-- `GLSLANG_MSG_VULKAN_RULES_BIT` message flag. -/
def GLSLANG_MSG_VULKAN_RULES_BIT : Nat := 1 <<< 4

/-- The immutable per-unit configuration, mirroring the fields of
`glslang_input_t` that the harness fills in (the source text itself is
passed separately). -/
structure Config where
  language : SourceLang
  stage : Stage
  client : Client
  client_version : Nat
  target_language : TargetLanguage
  target_language_version : Nat
  entrypoint : String
  source_entrypoint : String
  default_version : Nat
  default_profile : Profile
  force_default_version_and_profile : Bool
  forward_compatible : Bool
  messages : Nat
deriving DecidableEq

/-! ## Parser, linker, code generator, disassembler
(Modelled from the spec: none of these stages is under `src/`.) -/

/-- A two-stream diagnostic payload (info log and debug log). -/
structure Diag where
  info : String
  debug : String
deriving DecidableEq

/-- Modelled from the spec: the IR produced by a successful parse (§4.2)
— it carries the stage, the language/binary version it was parsed under,
and the effective entry symbol, exposed under the configured name. -/
structure IR where
  stage : Stage
  version : Nat
  entryName : String
deriving DecidableEq

/-- Modelled from the spec: a linked Program (§4.3) aggregating IRs of a
single stage, with a merged diagnostic log. -/
structure Program where
  stage : Stage
  version : Nat
  entryName : String
  info : String
  debug : String
deriving DecidableEq

/-- The SPIR-V binary module: an ordered sequence of 32-bit words. -/
structure BinaryModule where
  words : List Nat
deriving DecidableEq

/-- `glslang_program_SPIRV_get_size`: the module's word count. -/
def BinaryModule.wordCount (m : BinaryModule) : Nat := m.words.length

/-- `hasIdentTokFuel fuel s nm` scans `s` for a complete identifier token
equal to `nm`. -/
def hasIdentTokFuel (nm : String) : Nat → List Char → Bool
  | 0, _ => false
  | _ + 1, [] => false
  | fuel + 1, c :: rest =>
    if isIdentStart c then
      let id := (c :: rest).takeWhile isIdentChar
      let r2 := (c :: rest).dropWhile isIdentChar
      (String.mk id == nm) || hasIdentTokFuel nm fuel r2
    else hasIdentTokFuel nm fuel rest

/-- Whether a text contains `nm` as a complete identifier token. -/
def hasIdentTok (s : List Char) (nm : String) : Bool :=
  hasIdentTokFuel nm s.length s

/-- The function name the parser must locate in the source: the
source-level entry point when one is configured, the canonical entry
point otherwise. -/
def sourceEntryOf (cfg : Config) : String :=
  if cfg.source_entrypoint = "" then cfg.entrypoint else cfg.source_entrypoint

/-- Modelled from the spec: `parse(unit, config) -> IR | ParseError`
(§4.2). The parser locates the function matching the source-level entry
name and exposes it under the configured entry symbol; full grammar and
type checking of the dialect is outside the visible sources. -/
def parseUnit (cfg : Config) (pre : String) : Except Diag IR :=
  if hasIdentTok pre.data (sourceEntryOf cfg) then
    .ok { stage := cfg.stage
          version := cfg.target_language_version
          entryName := cfg.entrypoint }
  else
    .error { info := "ERROR: entry point not found: " ++ sourceEntryOf cfg
             debug := "" }

/-- Modelled from the spec: `link(stage, IR[]) -> Program | LinkError`
(§4.3). Requires at least one unit and that every IR is tagged with the
link stage; two IRs of different stages therefore always fail. -/
def link (stage : Stage) (irs : List IR) : Except Diag Program :=
  match irs with
  | [] => .error { info := "ERROR: no compilation units linked", debug := "" }
  | ir :: rest =>
    if (ir :: rest).all (fun i => decide (i.stage = stage)) then
      .ok { stage := stage
            version := ir.version
            entryName := ir.entryName
            info := ""
            debug := "" }
    else
      .error { info := "ERROR: stage mismatch between linked units", debug := "" }

/-- Pack a byte sequence into 32-bit words, little-endian, four bytes
per word (SPIR-V literal-string layout). -/
def packBytes : List Nat → List Nat
  | [] => []
  | [a] => [a]
  | [a, b] => [a + 256 * b]
  | [a, b, c] => [a + 256 * b + 65536 * c]
  | a :: b :: c :: d :: rest => (a + 256 * b + 65536 * c + 16777216 * d) :: packBytes rest

/-- Encode a literal string as SPIR-V words (null-terminated). -/
def encodeStrWords (s : String) : List Nat :=
  packBytes (s.data.map Char.toNat ++ [0])

/-- SPIR-V execution model number for a stage. -/
def execModel : Stage → Nat
  | .vertex => 0
  | .tesscontrol => 1
  | .tessevaluation => 2
  | .geometry => 3
  | .fragment => 4
  | .compute => 5

/-- The `OpEntryPoint` instruction words for a program's entry symbol:
opcode 15, with the word count in the high half of the first word. -/
def entryPointWords (p : Program) (stage : Stage) : List Nat :=
  let operands := execModel stage :: 1 :: encodeStrWords p.entryName
  (65536 * (operands.length + 1) + 15) :: operands

/-- The SPIR-V magic number. -/
def spirvMagic : Nat := 0x07230203

/-- Modelled from the spec: `generate(Program, stage) -> BinaryModule`
(§4.4) — a total function: generation has no error path once linking
succeeded. The module is the five-word SPIR-V header (magic, version,
generator, bound, schema) followed by the entry-point instruction. -/
def generate (p : Program) (stage : Stage) : BinaryModule :=
  { words := [spirvMagic, p.version, 0, 2, 0] ++ entryPointWords p stage }

/-- Decode the bytes of one word, little-endian. -/
def unpackWord (w : Nat) : List Nat :=
  [w % 256, w / 256 % 256, w / 65536 % 256, w / 16777216 % 256]

/-- Decode a null-terminated SPIR-V literal string from operand words. -/
def decodeStr (ws : List Nat) : String :=
  String.mk ((((ws.map unpackWord).flatten).takeWhile (fun b => decide (b ≠ 0))).map Char.ofNat)

/-- Render a SPIR-V execution-model number. -/
def modelNameOf (m : Nat) : String :=
  if m = 0 then "Vertex"
  else if m = 1 then "TessellationControl"
  else if m = 2 then "TessellationEvaluation"
  else if m = 3 then "Geometry"
  else if m = 4 then "Fragment"
  else if m = 5 then "GLCompute"
  else "Unknown"

/-- Render one decoded instruction. -/
def disasmInstr (w : Nat) (ops : List Nat) : String :=
  if w % 65536 = 15 then
    match ops with
    | m :: id :: nameWords =>
      "OpEntryPoint " ++ modelNameOf m ++ " %" ++ Nat.repr id ++
        " \x22" ++ decodeStr nameWords ++ "\x22"
    | _ => "OpEntryPoint"
  else "Op" ++ Nat.repr (w % 65536)

/-- Walk the instruction stream: each instruction's first word holds its
word count in the high half and its opcode in the low half. -/
def disasmLoop : Nat → List Nat → List String
  | 0, _ => []
  | _ + 1, [] => []
  | fuel + 1, w :: rest =>
    disasmInstr w (rest.take (w / 65536 - 1)) :: disasmLoop fuel (rest.drop (w / 65536 - 1))

/-- Modelled from the spec: `disassemble(BinaryModule) -> text` (§4.5) —
a pure, total function of the word sequence alone; a zero-length module
yields the empty text. -/
def disassemble (ws : List Nat) : String :=
  match ws with
  | [] => ""
  | _ :: _ =>
    "; SPIR-V\n" ++ String.intercalate "\n" (disasmLoop ws.length (ws.drop 5))

/-- The C entry `glslang_SPIRV_disassemble(words, size)`: a null word
pointer stands for the absent array, and only `size` words are read. -/
def disassembleC (ws : Option (List Nat)) (size : Nat) : String :=
  disassemble ((ws.getD []).take size)

/-- Extract the entry-point name recorded in a module's instruction
stream, if any. -/
def entryNameLoop : Nat → List Nat → Option String
  | 0, _ => none
  | _ + 1, [] => none
  | fuel + 1, w :: rest =>
    if w % 65536 = 15 then
      match rest.take (w / 65536 - 1) with
      | _ :: _ :: nameWords => some (decodeStr nameWords)
      | _ => none
    else entryNameLoop fuel (rest.drop (w / 65536 - 1))

/-- The entry-point name visible in a generated binary module. -/
def moduleEntryName (m : BinaryModule) : Option String :=
  entryNameLoop m.words.length (m.words.drop 5)

/-! ## The per-unit pipeline -/

/-- Pipeline stages, for recording which stages were invoked on a unit. -/
inductive PStage
  | prep
  | parseS
  | linkS
  | genS
deriving DecidableEq

/-- The error taxonomy of §7: each failure carries the accumulated
diagnostics, and a parse failure additionally exposes the unit's
preprocessed source text. -/
inductive CompileError
  | pp (d : Diag)
  | parseE (d : Diag) (preprocessed : String)
  | linkE (d : Diag)
deriving DecidableEq

/-- Run the pipeline on one unit, recording the stages invoked: each
stage runs only if every earlier stage succeeded, and the first failure
halts the unit's compilation. -/
def compileUnitT (cfg : Config) (src : String) :
    Except CompileError (Program × BinaryModule) × List PStage :=
  match ppText src with
  | .error m => (.error (.pp { info := m, debug := "" }), [.prep])
  | .ok pre =>
    match parseUnit cfg pre with
    | .error d => (.error (.parseE d pre), [.prep, .parseS])
    | .ok ir =>
      match link cfg.stage [ir] with
      | .error d => (.error (.linkE d), [.prep, .parseS, .linkS])
      | .ok prog =>
        (.ok (prog, generate prog cfg.stage), [.prep, .parseS, .linkS, .genS])

/-- The pipeline result of one unit. -/
def compileUnit (cfg : Config) (src : String) :
    Except CompileError (Program × BinaryModule) :=
  (compileUnitT cfg src).1

/-! ## The harness (`src/StandAlone/minimal-test.cpp`) -/

/-- `shaderSource` from `minimal-test.cpp` (the raw HLSL string). -/
def shaderSource : String := "
struct VertexInput
\x7b
    float2 Position : POSITION;
    float4 Color : COLOR0;
\x7d;

struct VertexOutput
\x7b
    float4 Position : SV_POSITION;
    float4 Color : COLOR0;
\x7d;


VertexOutput vertex(VertexInput input)
\x7b
    VertexOutput output;
    output.Position = float4(input.Position, 0, 1);
    output.Color = input.Color;
    return output;
\x7d

#define DO_SOMETHING(x) x * 10 + 4 - 8 + sqrt(x) / abs(x)


float4 pixel(VertexOutput input) : SV_Target
\x7b
    float value = DO_SOMETHING(input.Color.r);

    float value2 = DO_SOMETHING(value);

    float value3 = DO_SOMETHING(value2);

    input.Color *= 10;

    input.Color /= 43.55;

    input.Color.g = value2;
    input.Color.b = value;
    input.Color.a = value3;

    return input.Color;
\x7d
    "

/-- The `glslang_input_t` value `input` built in `main`. -/
def input : Config :=
  { language := .hlsl
    stage := .fragment
    client := .vulkan
    client_version := GLSLANG_TARGET_VULKAN_1_2
    target_language := .spv
    target_language_version := GLSLANG_TARGET_SPV_1_5
    entrypoint := "main"
    source_entrypoint := "pixel"
    default_version := 100
    default_profile := .noProfile
    force_default_version_and_profile := false
    forward_compatible := false
    messages := GLSLANG_MSG_DEFAULT_BIT }

/-- The observable calls `main` makes into the glslang C API. -/
inductive Ev
  | initProc
  | shaderCreate
  | preprocessCall
  | parseCall
  | programCreate
  | addShaderCall
  | linkCall
  | generateCall
  | getSizeCall
  | getWordsCall
  | getMessagesCall
  | programDelete
  | shaderDelete
  | disassembleCall
  | finalizeProc
deriving DecidableEq

/-- Stage tags for entries of a unit's diagnostic log. -/
inductive StageTag
  | prep
  | parseT
  | linkT
deriving DecidableEq

/-- The library-side outcomes the harness branches on, together with the
diagnostic text each stage would append to the shader's log. -/
structure LibSpec where
  preprocessOk : Bool
  ppInfo : String
  ppDebug : String
  parseOk : Bool
  parseInfo : String
  parseDebug : String
  linkOk : Bool
  linkInfo : String
  linkDebug : String

/-- What one run of the harness leaves behind. -/
structure HarnessRun where
  trace : List Ev
  exitCode : Nat
  shaderLog : List (StageTag × String)

/-- `main` of `minimal-test.cpp`, as a function of the library outcomes:
the exact sequence of API calls on each of the four paths (preprocess
failure, parse failure, link failure, success), the process exit code,
and the shader's stage-tagged diagnostic log. Note that the
preprocess-failure path returns without `glslang_finalize_process`. -/
def runHarness (o : LibSpec) : HarnessRun :=
  if o.preprocessOk = false then
    { trace := [.initProc, .shaderCreate, .preprocessCall, .shaderDelete]
      exitCode := 1
      shaderLog := [(.prep, o.ppInfo), (.prep, o.ppDebug)] }
  else if o.parseOk = false then
    { trace := [.initProc, .shaderCreate, .preprocessCall, .parseCall,
                .shaderDelete, .finalizeProc]
      exitCode := 1
      shaderLog := [(.prep, o.ppInfo), (.prep, o.ppDebug),
                    (.parseT, o.parseInfo), (.parseT, o.parseDebug)] }
  else if o.linkOk = false then
    { trace := [.initProc, .shaderCreate, .preprocessCall, .parseCall,
                .programCreate, .addShaderCall, .linkCall,
                .programDelete, .shaderDelete, .finalizeProc]
      exitCode := 1
      shaderLog := [(.prep, o.ppInfo), (.prep, o.ppDebug),
                    (.parseT, o.parseInfo), (.parseT, o.parseDebug)] }
  else
    { trace := [.initProc, .shaderCreate, .preprocessCall, .parseCall,
                .programCreate, .addShaderCall, .linkCall, .generateCall,
                .getSizeCall, .getWordsCall, .getMessagesCall,
                .programDelete, .shaderDelete, .disassembleCall, .finalizeProc]
      exitCode := 0
      shaderLog := [(.prep, o.ppInfo), (.prep, o.ppDebug),
                    (.parseT, o.parseInfo), (.parseT, o.parseDebug)] }

/-! ## Concrete fixtures used by witnesses -/

/-- A one-line macro-free HLSL fragment defining a `pixel` function. -/
def pixelSourceSmall : String := "float4 pixel(VertexOutput i) : SV_Target"

/-- A one-line source that defines no `pixel` function. -/
def noEntrySource : String := "float4 other(VertexOutput i) : SV_Target"

/-- A source consisting of an unsupported preprocessor directive. -/
def badDirectiveSource : String := "#bork"

/-- The IR the parser produces for a fragment unit under `input`. -/
def irPixel : IR :=
  { stage := .fragment, version := GLSLANG_TARGET_SPV_1_5, entryName := "main" }

/-- A vertex-stage IR with the same entry symbol. -/
def irVertex : IR :=
  { stage := .vertex, version := GLSLANG_TARGET_SPV_1_5, entryName := "main" }

/-- The Program obtained by linking `[irPixel]` at the fragment stage. -/
def progPixel : Program :=
  { stage := .fragment, version := GLSLANG_TARGET_SPV_1_5, entryName := "main"
    info := "", debug := "" }

/-- The diagnostic the parser model produces when `pixel` is absent. -/
def parseFailDiag : Diag :=
  { info := "ERROR: entry point not found: pixel", debug := "" }

/-- Library outcomes: preprocessing fails. -/
def oPPFail : LibSpec := ⟨false, "", "", true, "", "", true, "", ""⟩

/-- Library outcomes: parsing fails. -/
def oParseFail : LibSpec := ⟨true, "", "", false, "", "", true, "", ""⟩

/-- Library outcomes: linking fails. -/
def oLinkFail : LibSpec := ⟨true, "", "", true, "", "", false, "", ""⟩

/-- Library outcomes: every stage succeeds. -/
def oAllOk : LibSpec := ⟨true, "", "", true, "", "", true, "", ""⟩

/-- A short macro-free text (no directive lines). -/
def macroFreeSample : String := "struct VertexInput\nfloat2 Position : POSITION;"

/-! ## Helper lemmas for the claims -/

/-- A successful parse yields precisely the IR carrying the unit's
stage, target version, and the configured entry symbol. -/
theorem parseUnit_ok_shape (cfg : Config) (pre : String) (ir : IR)
    (h : parseUnit cfg pre = .ok ir) :
    ir = { stage := cfg.stage
           version := cfg.target_language_version
           entryName := cfg.entrypoint } := by
  unfold parseUnit at h
  split at h <;> simp_all

/-- Linking a single IR successfully yields the Program carrying that
IR's version and entry symbol. -/
theorem link_single_ok (stage : Stage) (ir : IR) (prog : Program)
    (h : link stage [ir] = .ok prog) :
    prog = { stage := stage
             version := ir.version
             entryName := ir.entryName
             info := ""
             debug := "" } := by
  unfold link at h
  split at h
  · exact Except.noConfusion h
  · rename_i heq
    injection heq with he1 he2
    subst he1
    subst he2
    split at h
    · injection h with h2
      exact h2.symm
    · exact Except.noConfusion h

/-- The entry-point instruction of a program whose entry symbol is
`"main"`: a five-word instruction (opcode 15) whatever the stage is. -/
theorem entryPointWords_main (p : Program) (s : Stage) (h : p.entryName = "main") :
    entryPointWords p s = (65536 * 5 + 15) :: execModel s :: 1 :: encodeStrWords "main" := by
  unfold entryPointWords
  rw [h]
  rfl

/-- A generated module for a program whose entry symbol is `"main"`
records that name in its entry-point instruction, whatever the stage,
version and diagnostic fields are. -/
theorem moduleEntryName_generate_main (p : Program) (s : Stage)
    (h : p.entryName = "main") :
    moduleEntryName (generate p s) = some "main" := by
  unfold moduleEntryName generate
  rw [entryPointWords_main p s h]
  rfl

/-! ## The claims -/

/-- Claim C1: for the harness's HLSL source under its configuration
(fragment stage, Vulkan 1.2 client, SPIR-V 1.5), the full pipeline
preprocess, parse, link, generate succeeds — producing exactly the
fragment program `progPixel` and its generated module — the binary
module has a positive word count, and its disassembly contains an
entry-point instruction naming `"main"`. -/
theorem c1_end_to_end_fragment_pipeline :
    compileUnit input shaderSource =
      Except.ok (progPixel, generate progPixel Stage.fragment) ∧
    0 < (generate progPixel Stage.fragment).wordCount ∧
    hasSubStr (disassemble (generate progPixel Stage.fragment).words)
      "OpEntryPoint" = true ∧
    hasSubStr (disassemble (generate progPixel Stage.fragment).words)
      "\x22main\x22" = true := by
  refine ⟨rfl, by decide, rfl, rfl⟩

/-- Claim C2: whenever the configuration renames `pixel` to `main`, a
successful parse followed by a successful link yields a Program whose
effective entry symbol, both in the Program and in the generated binary,
is `"main"`, even though the source only defines `pixel`. -/
theorem c2_entry_renaming (cfg : Config) (pre : String) (ir : IR) (prog : Program)
    (_hsrc : cfg.source_entrypoint = "pixel") (hmain : cfg.entrypoint = "main")
    (hparse : parseUnit cfg pre = .ok ir) (hlink : link cfg.stage [ir] = .ok prog) :
    prog.entryName = "main" ∧ moduleEntryName (generate prog cfg.stage) = some "main" := by
  have hireq := parseUnit_ok_shape cfg pre ir hparse
  have hpeq := link_single_ok cfg.stage ir prog hlink
  have hpe : prog.entryName = "main" := by
    rw [hpeq, hireq]
    exact hmain
  exact ⟨hpe, moduleEntryName_generate_main prog cfg.stage hpe⟩

/-- Witness for C2 at the harness configuration and a small source
defining only `pixel`. -/
theorem c2_entry_renaming_witness :
    parseUnit input pixelSourceSmall = Except.ok irPixel ∧
    link input.stage [irPixel] = Except.ok progPixel ∧
    progPixel.entryName = "main" ∧
    moduleEntryName (generate progPixel input.stage) = some "main" := by
  have h := c2_entry_renaming input pixelSourceSmall irPixel progPixel rfl rfl
    (by rfl) (by rfl)
  exact ⟨by rfl, by rfl, h.1, h.2⟩

/-- Claim C3: a unit whose preprocessing fails never reaches parsing:
the harness trace contains no parse call, the shader's diagnostic log
holds only preprocessor-stage messages, and the pipeline's stage record
stops at the preprocessor. -/
theorem c3_no_parse_after_preprocess_failure (o : LibSpec) (cfg : Config)
    (src m : String) (hpp : o.preprocessOk = false) (herr : ppText src = .error m) :
    Ev.parseCall ∉ (runHarness o).trace ∧
    (∀ e ∈ (runHarness o).shaderLog, e.1 = StageTag.prep) ∧
    (compileUnitT cfg src).2 = [PStage.prep] := by
  refine ⟨?_, ?_, ?_⟩
  · simp [runHarness, hpp]
  · simp [runHarness, hpp]
  · simp [compileUnitT, herr]

/-- Witness for C3: preprocessing fails on an unsupported directive. -/
theorem c3_no_parse_after_preprocess_failure_witness :
    Ev.parseCall ∉ (runHarness oPPFail).trace ∧
    (∀ e ∈ (runHarness oPPFail).shaderLog, e.1 = StageTag.prep) ∧
    (compileUnitT input badDirectiveSource).2 = [PStage.prep] :=
  c3_no_parse_after_preprocess_failure oPPFail input badDirectiveSource
    ("unsupported or malformed directive") rfl (by rfl)

/-- Claim C4 (demonstrating the defect): on the preprocess-failure path
`main` returns without calling `glslang_finalize_process`, so the
init/teardown pair is unbalanced there, although the parse-failure,
link-failure and success paths all balance it. -/
theorem c4_finalize_not_called_on_preprocess_failure :
    ((runHarness oPPFail).trace.count Ev.finalizeProc = 0 ∧
     (runHarness oPPFail).trace.count Ev.initProc = 1) ∧
    (runHarness oParseFail).trace.count Ev.finalizeProc = 1 ∧
    (runHarness oLinkFail).trace.count Ev.finalizeProc = 1 ∧
    (runHarness oAllOk).trace.count Ev.finalizeProc = 1 := by
  decide

/-- Claim C5: once linking has succeeded, code generation always
produces a binary module — the pipeline returns it with no further
error path, and the word count the caller retrieves is exactly the
length of the word array. -/
theorem c5_generate_infallible_after_link (cfg : Config) (src pre : String)
    (ir : IR) (prog : Program)
    (hpp : ppText src = .ok pre) (hparse : parseUnit cfg pre = .ok ir)
    (hlink : link cfg.stage [ir] = .ok prog) :
    compileUnit cfg src = .ok (prog, generate prog cfg.stage) ∧
    (generate prog cfg.stage).wordCount = (generate prog cfg.stage).words.length := by
  constructor
  · simp [compileUnit, compileUnitT, hpp, hparse, hlink]
  · rfl

/-- Witness for C5 at the harness configuration and a small source. -/
theorem c5_generate_infallible_after_link_witness :
    compileUnit input pixelSourceSmall =
      Except.ok (progPixel, generate progPixel input.stage) ∧
    (generate progPixel input.stage).wordCount =
      (generate progPixel input.stage).words.length :=
  c5_generate_infallible_after_link input pixelSourceSmall pixelSourceSmall
    irPixel progPixel (by rfl) (by rfl) (by rfl)

/-- Claim C6: disassembling a zero-length binary module — including the
null-pointer, zero-count call the shared-library smoke test makes —
returns the empty text and does not fail. -/
theorem c6_disassemble_empty_module :
    disassemble [] = "" ∧ disassembleC none 0 = "" :=
  ⟨rfl, rfl⟩

/-- Claim C7: linking two IRs tagged with different pipeline stages
always fails with a link error; they are never merged into a Program. -/
theorem c7_link_stage_mismatch_fails (s : Stage) (ir1 ir2 : IR)
    (h : ir1.stage ≠ ir2.stage) :
    link s [ir1, ir2] =
      .error { info := "ERROR: stage mismatch between linked units", debug := "" } := by
  have hfalse : ([ir1, ir2].all (fun i => decide (i.stage = s))) = false := by
    by_cases h1 : ir1.stage = s
    · by_cases h2 : ir2.stage = s
      · exact absurd (h1.trans h2.symm) h
      · simp [h1, h2]
    · simp [h1]
  simp [link, hfalse]

/-- Witness for C7: a fragment IR and a vertex IR cannot link. -/
theorem c7_link_stage_mismatch_fails_witness :
    irPixel.stage ≠ irVertex.stage ∧
    link Stage.fragment [irPixel, irVertex] =
      Except.error { info := "ERROR: stage mismatch between linked units", debug := "" } :=
  ⟨by decide, c7_link_stage_mismatch_fails Stage.fragment irPixel irVertex (by decide)⟩

/-- Claim C8: each stage failure is returned with that stage's
accumulated info/debug diagnostics, a parse failure additionally carries
the unit's preprocessed text, and the pipeline for the unit halts at the
failing stage with no later stage invoked. -/
theorem c8_failure_payload_and_halt (cfg : Config) (src : String) :
    (∀ m, ppText src = .error m →
       compileUnitT cfg src = (.error (.pp { info := m, debug := "" }), [PStage.prep])) ∧
    (∀ pre d, ppText src = .ok pre → parseUnit cfg pre = .error d →
       compileUnitT cfg src = (.error (.parseE d pre), [PStage.prep, PStage.parseS])) ∧
    (∀ pre ir d, ppText src = .ok pre → parseUnit cfg pre = .ok ir →
       link cfg.stage [ir] = .error d →
       compileUnitT cfg src =
         (.error (.linkE d), [PStage.prep, PStage.parseS, PStage.linkS])) := by
  refine ⟨?_, ?_, ?_⟩
  · intro m hm
    simp [compileUnitT, hm]
  · intro pre d hpre hd
    simp [compileUnitT, hpre, hd]
  · intro pre ir d hpre hir hd
    simp [compileUnitT, hpre, hir, hd]

/-- Witness for C8: a parse failure carries the parser diagnostics and
the preprocessed source, and the unit stops after the parse stage. -/
theorem c8_failure_payload_and_halt_witness :
    compileUnitT input noEntrySource =
      (.error (.parseE parseFailDiag noEntrySource), [PStage.prep, PStage.parseS]) :=
  (c8_failure_payload_and_halt input noEntrySource).2.1 noEntrySource parseFailDiag
    (by rfl) (by rfl)

/-- Claim C9: preprocessing is idempotent on macro-free text: running
the preprocessor on its own output yields the same result as running it
once. -/
theorem c9_preprocess_idempotent_on_macro_free (x : String) (h : macroFree x) :
    (ppText x).bind ppText = ppText x := by
  have hls := ppLines_no_directive (splitLines x.data) h
  have hok : ppText x = .ok (String.mk (joinLines (splitLines x.data))) := by
    unfold ppText
    rw [hls]
  rw [hok]
  show ppText (String.mk (joinLines (splitLines x.data))) = _
  have hsplit : splitLines (joinLines (splitLines x.data)) = splitLines x.data :=
    splitLines_joinLines _ (splitLinesAux_ne_nil _ _)
      (splitLinesAux_no_newline _ _ (by simp))
  unfold ppText
  show (match ppLines [] (splitLines (joinLines (splitLines x.data))) with
    | .ok ls => Except.ok (String.mk (joinLines ls))
    | .error e => Except.error e) = _
  rw [hsplit, hls]

/-- Witness for C9 on a concrete macro-free text. -/
theorem c9_preprocess_idempotent_on_macro_free_witness :
    macroFree macroFreeSample ∧
    (ppText macroFreeSample).bind ppText = ppText macroFreeSample :=
  ⟨by decide, c9_preprocess_idempotent_on_macro_free macroFreeSample (by decide)⟩

/-- The ambient objects alive during a harness run: the disassembler is
given none of them, only the word array and count. -/
structure Ambient where
  shaderAlive : Bool
  programAlive : Bool
  cfg : Config
  source : String

/-- Modelled from the spec: `disassemble` as invoked from a process
state — it reads only the word array and the count passed to it (§4.5:
a pure function of its input, with no access to the original source,
Program, or Configuration). -/
def disassembleInEnv (_a : Ambient) (ws : List Nat) (size : Nat) : String :=
  disassemble (ws.take size)

/-- The harness's process state before it frees the program and shader. -/
def ambientLive : Ambient := ⟨true, true, input, pixelSourceSmall⟩

/-- The harness's process state after program and shader are deleted. -/
def ambientFreed : Ambient := ⟨false, false, input, ""⟩

/-- Claim C10: disassembly is a pure function of the word sequence and
count alone: two invocations on equal words and counts yield equal text
whatever the surrounding process state, in particular after the Program
and shader have been released. -/
theorem c10_disassemble_pure (a1 a2 : Ambient) (ws1 ws2 : List Nat) (n1 n2 : Nat)
    (hw : ws1 = ws2) (hn : n1 = n2) :
    disassembleInEnv a1 ws1 n1 = disassembleInEnv a2 ws2 n2 := by
  subst hw
  subst hn
  rfl

/-- Witness for C10: the same words disassemble identically before and
after the owning objects are freed. -/
theorem c10_disassemble_pure_witness :
    disassembleInEnv ambientLive [spirvMagic] 1 =
      disassembleInEnv ambientFreed [spirvMagic] 1 :=
  c10_disassemble_pure ambientLive ambientFreed [spirvMagic] [spirvMagic] 1 1 rfl rfl

end Glslang

